import Mathlib

set_option maxHeartbeats 1000000

/- Shallow embedding of the pymc4 prototype (src/pymc4/_model.py and
src/pymc4/ast_compiler.py).

Conventions of the embedding:
- realized values and log-probabilities of random variables are integers
  (the numerical backend is abstracted; tf.reduce_sum of a scalar is the
  scalar itself);
- the machine-level collaborators of ast_compiler.py (CPython's compile,
  inspect.getsourcelines) and the AutoNameTransformer visitor, whose
  module is not part of the embedded sources, are oracle fields of a
  PyWorld record;
- the _template_contexts module is not part of the embedded sources
  either: the Forward and Inference capture contexts are modelled from
  the spec, see the doc comments below;
- Python object identity is modelled with explicit object ids and the
  mutable observation dictionaries live in an explicit heap, so that
  aliasing created by copy.copy is visible. -/

abbrev Val := Int

/-- A random variable as the core sees it: a stable name, a realized
value and a log-probability (already reduced to a scalar). -/
structure RandomVar where
  name : String
  value : Val
  logProb : Val
deriving DecidableEq

/-- A model-template function body: a sequence of random-variable
constructions, where later constructions may depend on the realized
values of earlier ones (data-dependent control flow). -/
inductive Prog where
  | done : Prog
  | rv (name : String) (sample : Val) (lp : Val → Val) (rest : Val → Prog) : Prog

/-- Modelled from the spec: the Forward Context of the absent
_template_contexts module records every variable constructed during one
evaluation of the template function, in construction order. -/
structure ForwardContext where
  vars : List RandomVar

/-- Modelled from the spec: evaluating a template function under a
Forward Context appends each constructed variable to the captured list,
letting it sample freely. -/
def forwardEval : Prog → List RandomVar → List RandomVar
  | .done, acc => acc
  | .rv n s lp rest, acc => forwardEval (rest s) (acc ++ [⟨n, s, lp s⟩])

/-- Position of the first variable with the given name in a list of
expected variables. -/
def lookupPosRV (exp : List RandomVar) (n : String) : Option Nat :=
  match exp with
  | [] => none
  | e :: rest => if e.name = n then some 0 else (lookupPosRV rest n).map (· + 1)

/-- Position of the first occurrence of a name in a list of names. -/
def lookupPosN (exp : List String) (n : String) : Option Nat :=
  match exp with
  | [] => none
  | e :: rest => if e = n then some 0 else (lookupPosN rest n).map (· + 1)

/-- Errors of the embedded program: the exception classes of
ast_compiler.py (Error, Unsupported, NoSource), the ContextMismatch of
the spec's error taxonomy, and the builtin Python exceptions that the
embedded code can let escape. -/
inductive PyErr where
  | Unsupported (msg : String)
  | NoSource (msg : String)
  | Error (msg : String)
  | ContextMismatch (msg : String)
  | IndexError
  | AttributeError
  | IndentationErr
  | CompileErr
deriving DecidableEq

/-- Modelled from the spec: the Inference Context of the absent
_template_contexts module holds an ordered list of expected variables
and a positional tuple of provided values. -/
structure InferenceContext where
  provided_values : List Val
  expected_vars : List RandomVar

/-- Modelled from the spec: constructing an Inference Context validates
eagerly that expected_vars and provided_values have equal length,
failing fast with ContextMismatch otherwise. -/
def InferenceContext.init (values : List Val) (expected_vars : List RandomVar) :
    Except PyErr InferenceContext :=
  if values.length = expected_vars.length then
    Except.ok ⟨values, expected_vars⟩
  else
    Except.error (PyErr.ContextMismatch "expected_vars and provided_values do not match")

/-- Modelled from the spec: evaluating the template under an Inference
Context rebinds each constructed variable whose name occurs in
expected_vars to the positionally corresponding provided value, and
appends variables with unexpected names without rebinding. -/
def inferEval (exp : List RandomVar) (prov : List Val) : Prog → List RandomVar → List RandomVar
  | .done, acc => acc
  | .rv n s lp rest, acc =>
    let v : Val :=
      match lookupPosRV exp n with
      | some i => prov.getD i s
      | none => s
    inferEval exp prov (rest v) (acc ++ [⟨n, v, lp v⟩])

/-- Variant of inferEval written from the spec's words for claim C2: the
expected variables are given as a name list rather than as the captured
variable objects. -/
def inferEvalN (exp : List String) (prov : List Val) : Prog → List RandomVar → List RandomVar
  | .done, acc => acc
  | .rv n s lp rest, acc =>
    let v : Val :=
      match lookupPosN exp n with
      | some i => prov.getD i s
      | none => s
    inferEvalN exp prov (rest v) (acc ++ [⟨n, v, lp v⟩])

/-- Python dict assignment d[k] = v on an association list. -/
def dictSet (d : List (String × Val)) (k : String) (v : Val) : List (String × Val) :=
  if d.any (fun p => p.1 == k) then
    d.map (fun p => if p.1 == k then (k, v) else p)
  else
    d ++ [(k, v)]

/-- Python dict.update. -/
def dictUpdate (d kw : List (String × Val)) : List (String × Val) :=
  kw.foldl (fun acc p => dictSet acc p.1 p.2) d

/-- The dict comprehension of forward_sample: one entry per captured
variable, keyed by its name, holding its realized value. -/
def dictOfVars (vs : List RandomVar) : List (String × Val) :=
  vs.foldl (fun acc v => dictSet acc v.name v.value) []

/-- The semantic type of a model-template function: positional and
keyword arguments to a template body. -/
abbrev TemplateFn := List Val → List (String × Val) → Prog

/-- ModelTemplate of _model.py: an inert wrapper around a function. The
function's type is a parameter because the same class wraps the semantic
template functions of the model claims and the Python function objects
of the rewrite-pipeline claims. -/
structure ModelTemplate (F : Type) where
  _func : F

/-- Model of _model.py. The _observations field is the heap reference of
the model's mutable observation dict; oid is the Python object identity. -/
structure Model where
  oid : Nat
  _template : ModelTemplate TemplateFn
  _template_args : List Val × List (String × Val)
  _forward_context : ForwardContext
  _observations : Nat

/-- The mutable Python state the model claims need: a heap of
observation dicts indexed by reference, plus fresh-reference and
fresh-object counters. -/
structure PyState where
  obsHeap : Nat → List (String × Val)
  nextRef : Nat
  nextOid : Nat

/-- Model.__init__: stores template, arguments and forward context, and
allocates a fresh empty observation dict. -/
def Model.init (t : ModelTemplate TemplateFn) (ctx : ForwardContext)
    (args : List Val × List (String × Val)) (st : PyState) : Model × PyState :=
  (⟨st.nextOid, t, args, ctx, st.nextRef⟩,
   ⟨fun r => if r = st.nextRef then [] else st.obsHeap r, st.nextRef + 1, st.nextOid + 1⟩)

/-- Model._evaluate: call the template function with the saved
arguments; the result is the template body that the ambient context
then interprets. -/
def Model._evaluate (m : Model) : Prog :=
  m._template._func m._template_args.1 m._template_args.2

/-- ModelTemplate.configure: open a Forward Context, construct the Model
bound to the arguments, evaluate the template function once inside the
context's scope (populating the captured-variable list), and return the
model referencing the populated context. -/
def ModelTemplate.configure (t : ModelTemplate TemplateFn) (args : List Val)
    (kwargs : List (String × Val)) (st : PyState) : Model × PyState :=
  let p := Model.init t ⟨[]⟩ (args, kwargs) st
  ({ p.1 with _forward_context := ⟨forwardEval (Model._evaluate p.1) []⟩ }, p.2)

/-- Model.make_log_prob_function: returns the closure log_prob, which
constructs an Inference Context from the caller's positional values and
the forward context's variables, re-evaluates the template under it, and
returns the summed log-probability of every captured variable. -/
def Model.make_log_prob_function (m : Model) : List Val → Except PyErr Val :=
  fun args =>
    match InferenceContext.init args m._forward_context.vars with
    | .error e => .error e
    | .ok context =>
      .ok (((inferEval context.expected_vars context.provided_values
        (Model._evaluate m) []).map RandomVar.logProb).sum)

/-- Statement of the spec's description of the log-probability function
for claim C2: a fresh Inference Context whose expected_vars is the name
list of the Model's Forward Context and whose provided_values is the
caller's tuple; the template is re-evaluated under it and the captured
variables' log-probabilities are summed. -/
def log_prob_spec (m : Model) (args : List Val) : Except PyErr Val :=
  if args.length = (m._forward_context.vars.map RandomVar.name).length then
    Except.ok (((inferEvalN (m._forward_context.vars.map RandomVar.name) args
      (Model._evaluate m) []).map RandomVar.logProb).sum)
  else
    Except.error (PyErr.ContextMismatch "expected_vars and provided_values do not match")

/-- Model.forward_sample: re-enter the stored forward context and read
each captured variable's realized value into a name-to-value dict. The
positional and keyword arguments are accepted and ignored, as in the
source. -/
def Model.forward_sample (m : Model) (args : List Val)
    (kwargs : List (String × Val)) : List (String × Val) :=
  dictOfVars m._forward_context.vars

/-- Model.observe: model = copy.copy(self) makes a new object with the
same field values, in particular the same observation-dict reference;
model._observations.update(kwargs) then mutates the dict at that shared
reference. -/
def Model.observe (m : Model) (kwargs : List (String × Val)) (st : PyState) :
    Model × PyState :=
  let model := { m with oid := st.nextOid }
  (model,
   ⟨fun r => if r = m._observations then dictUpdate (st.obsHeap r) kwargs else st.obsHeap r,
    st.nextRef, st.nextOid + 1⟩)

/- ------------------------------------------------------------------ -/
/- ast_compiler.py                                                     -/
/- ------------------------------------------------------------------ -/

/-- Python statement nodes, as far as the rewrite pipeline inspects
them: function definitions (name, lineno, body), with-statements
(lineno, body) and any other statement (an opaque tag plus lineno). -/
inductive Stmt where
  | functionDef (nm : String) (lineno : Int) (body : List Stmt) : Stmt
  | withStmt (lineno : Int) (body : List Stmt) : Stmt
  | other (tag : Nat) (lineno : Int) : Stmt

/-- A parsed module: ast.Module, holding its statement list. -/
structure Ast where
  body : List Stmt

mutual

/-- ast.increment_lineno on a single statement. -/
def stmtIncLineno (n : Int) : Stmt → Stmt
  | .functionDef nm l b => .functionDef nm (l + n) (stmtsIncLineno n b)
  | .withStmt l b => .withStmt (l + n) (stmtsIncLineno n b)
  | .other t l => .other t (l + n)

/-- ast.increment_lineno on a statement list. -/
def stmtsIncLineno (n : Int) : List Stmt → List Stmt
  | [] => []
  | s :: rest => stmtIncLineno n s :: stmtsIncLineno n rest

end

/-- ast.increment_lineno on a module. -/
def astIncLineno (a : Ast) (n : Int) : Ast := ⟨stmtsIncLineno n a.body⟩

/-- Top-level line number of a statement. -/
def stmtLineno : Stmt → Int
  | .functionDef _ l _ => l
  | .withStmt l _ => l
  | .other _ l => l

/-- The .body attribute of a statement; compound statements have one,
simple statements raise AttributeError (none). -/
def stmtBody? : Stmt → Option (List Stmt)
  | .functionDef _ _ b => some b
  | .withStmt _ b => some b
  | .other _ _ => none

/-- isinstance(node, ast.FunctionDef). -/
def isFunctionDefStmt : Stmt → Bool
  | .functionDef _ _ _ => true
  | _ => false

/-- A compiled code object, with the fields the pipeline reads and the
fourteen components, in order, that the remangling step passes to the
code constructor. Non-code constants in co_consts are kept as opaque
tags. -/
inductive CodeObj where
  | mk (argcount nlocals stacksize flags : Nat) (codestr : String)
      (consts : List (Sum Nat CodeObj)) (names varnames : List String)
      (filename nm : String) (firstlineno : Int) (lnotab : String)
      (freevars cellvars : List String) : CodeObj

def CodeObj.co_argcount : CodeObj → Nat
  | .mk x _ _ _ _ _ _ _ _ _ _ _ _ _ => x

def CodeObj.co_nlocals : CodeObj → Nat
  | .mk _ x _ _ _ _ _ _ _ _ _ _ _ _ => x

def CodeObj.co_stacksize : CodeObj → Nat
  | .mk _ _ x _ _ _ _ _ _ _ _ _ _ _ => x

def CodeObj.co_flags : CodeObj → Nat
  | .mk _ _ _ x _ _ _ _ _ _ _ _ _ _ => x

def CodeObj.co_code : CodeObj → String
  | .mk _ _ _ _ x _ _ _ _ _ _ _ _ _ => x

def CodeObj.co_consts : CodeObj → List (Sum Nat CodeObj)
  | .mk _ _ _ _ _ x _ _ _ _ _ _ _ _ => x

def CodeObj.co_names : CodeObj → List String
  | .mk _ _ _ _ _ _ x _ _ _ _ _ _ _ => x

def CodeObj.co_varnames : CodeObj → List String
  | .mk _ _ _ _ _ _ _ x _ _ _ _ _ _ => x

def CodeObj.co_filename : CodeObj → String
  | .mk _ _ _ _ _ _ _ _ x _ _ _ _ _ => x

def CodeObj.co_name : CodeObj → String
  | .mk _ _ _ _ _ _ _ _ _ x _ _ _ _ => x

def CodeObj.co_firstlineno : CodeObj → Int
  | .mk _ _ _ _ _ _ _ _ _ _ x _ _ _ => x

def CodeObj.co_lnotab : CodeObj → String
  | .mk _ _ _ _ _ _ _ _ _ _ _ x _ _ => x

def CodeObj.co_freevars : CodeObj → List String
  | .mk _ _ _ _ _ _ _ _ _ _ _ _ x _ => x

def CodeObj.co_cellvars : CodeObj → List String
  | .mk _ _ _ _ _ _ _ _ _ _ _ _ _ x => x

/-- Outcome of a call to the builtin compile with PyCF_ONLY_AST: a
parsed module, an IndentationError, or any other compile-time error. -/
inductive ParseOut where
  | ok (a : Ast)
  | indentErr
  | otherErr

/-- The machine-level collaborators of the pipeline, as oracles:
pycfMask is the environment's PyCF_MASK constant, getsourcelines is
inspect.getsourcelines (none when it raises IOError), compileAst is the
builtin compile used for parsing (source, filename, mode, flags),
compileCode is the builtin compile producing a code object, and
transform is the AutoNameTransformer visit followed by
ast.fix_missing_locations (that transformer's module is not among the
embedded sources, so it stays abstract). -/
structure PyWorld where
  pycfMask : Nat
  getsourcelines : CodeObj → Option (List String × Int)
  compileAst : String → String → String → Nat → ParseOut
  compileCode : Ast → String → String → Nat → CodeObj
  transform : Ast → Ast

/-- inspect.CO_NESTED. -/
def CO_NESTED : Nat := 16

/-- ast.PyCF_ONLY_AST. -/
def PyCF_ONLY_AST : Nat := 1024

/-- Character class of the mangling regex: A-Z, a-z, 0-9 or underscore. -/
def isMangleChar (c : Char) : Bool := c.isAlpha || c.isDigit || c = '_'

/-- Whether a character list begins with two underscores. -/
def startsDunder : List Char → Bool
  | '_' :: '_' :: _ => true
  | _ => false

/-- re.match of the pattern underscore, letter, any run of word
characters (greedy), double underscore, anything - returning the group
before the double underscore. The greedy group takes the longest valid
split. -/
def privatePfxOf (s : String) : Option String :=
  match s.data with
  | '_' :: c1 :: rest =>
    if c1.isAlpha then
      match ((List.range (rest.length + 1)).filter
          (fun i => (rest.take i).all isMangleChar && startsDunder (rest.drop i))).getLast? with
      | some i => some (String.mk ('_' :: c1 :: rest.take i))
      | none => none
    else none
  | _ => none

/-- The privateprefix scan of uncompile: the first co_names entry that
matches the mangling pattern yields the prefix. -/
def findPrivatePfx : List String → Option String
  | [] => none
  | n :: rest =>
    match privatePfxOf n with
    | some p => some p
    | none => findPrivatePfx rest

/-- The list uncompile returns: source, filename, mode, flags,
firstlineno, privateprefix. -/
structure Uncompiled where
  source : String
  filename : String
  mode : String
  flags : Nat
  firstlineno : Int
  privatePfx : Option String
deriving DecidableEq

/-- uncompile of ast_compiler.py: reject nested functions and closures,
lambdas, and code compiled from a string; fetch the source lines (IOError
becomes NoSource); scan co_names for a mangling prefix. -/
def uncompile (w : PyWorld) (c : CodeObj) : Except PyErr Uncompiled :=
  if c.co_flags &&& CO_NESTED ≠ 0 ∨ c.co_freevars ≠ [] then
    Except.error (PyErr.Unsupported "nested functions not supported")
  else if c.co_name = "<lambda>" then
    Except.error (PyErr.Unsupported "lambda functions not supported")
  else if c.co_filename = "<string>" then
    Except.error (PyErr.Unsupported "code without source file not supported")
  else
    match w.getsourcelines c with
    | none => Except.error (PyErr.NoSource "source code not available")
    | some (lines, firstlineno) =>
      Except.ok ⟨String.join lines, c.co_filename, "exec", c.co_flags &&& w.pycfMask,
        firstlineno, findPrivatePfx c.co_names⟩

/-- parse_snippet of ast_compiler.py: parse a one-newline-prefixed copy
of the snippet; on IndentationError, wrap the snippet in a dummy
with-statement, parse again, and peel the wrapper node; finally shift
every line number by firstlineno - 2. -/
def parse_snippet (w : PyWorld) (source filename mode : String) (flags : Nat)
    (firstlineno : Int) (privatePfxIgnored : Option String) : Except PyErr Ast :=
  match w.compileAst ("\n" ++ source) filename mode (flags ||| PyCF_ONLY_AST) with
  | .ok a => Except.ok (astIncLineno a (firstlineno - 2))
  | .otherErr => Except.error PyErr.CompileErr
  | .indentErr =>
    match w.compileAst ("with 0:\n" ++ source) filename mode (flags ||| PyCF_ONLY_AST) with
    | .ok a =>
      match a.body with
      | [] => Except.error PyErr.IndexError
      | s :: _ =>
        match stmtBody? s with
        | some inner => Except.ok (astIncLineno ⟨inner⟩ (firstlineno - 2))
        | none => Except.error PyErr.AttributeError
    | .indentErr => Except.error PyErr.IndentationErr
    | .otherErr => Except.error PyErr.CompileErr

/-- The regex of fixnames: names that begin with a double underscore and
do not end with one (the lookbehind excludes dunders). -/
def isprivate (s : String) : Bool := s.startsWith "__" && !(s.endsWith "__")

/-- fixnames of recompile: prepend the mangling prefix to every private
name. -/
def fixnames (p : String) (names : List String) : List String :=
  names.map (fun n => if isprivate n then p ++ n else n)

/-- The code-constructor call of recompile: same fourteen components,
with co_names and co_varnames passed through fixnames. -/
def remangle (p : String) : CodeObj → CodeObj
  | .mk a nl ss fl cd cs nms vns fn nm fln lt fv cv =>
    .mk a nl ss fl cd cs (fixnames p nms) (fixnames p vns) fn nm fln lt fv cv

/-- The for-loop of recompile: the first code constant whose co_name and
co_firstlineno both match the parsed function definition. -/
def findBodyCode (consts : List (Sum Nat CodeObj)) (nm : String) (ln : Int) :
    Option CodeObj :=
  match consts with
  | [] => none
  | Sum.inl _ :: rest => findBodyCode rest nm ln
  | Sum.inr c :: rest =>
    if c.co_name = nm ∧ c.co_firstlineno = ln then some c
    else findBodyCode rest nm ln

/-- The source argument of recompile: raw source text or a preparsed
tree. -/
inductive SrcOrAst where
  | src (s : String)
  | tree (a : Ast)

/-- recompile of ast_compiler.py: parse when given text; require the
first statement to be a function definition; compile; locate the inner
function-body code object by name and first line; remangle private names
when a prefix was recorded. -/
def recompile (w : PyWorld) (source : SrcOrAst) (filename mode : String) (flags : Nat)
    (firstlineno : Int) (privatePfx : Option String) : Except PyErr CodeObj :=
  match (match source with
         | .tree a => Except.ok a
         | .src s => parse_snippet w s filename mode flags firstlineno none) with
  | .error e => .error e
  | .ok a =>
    match a.body with
    | [] => Except.error PyErr.IndexError
    | node :: _ =>
      match node with
      | .functionDef nm ln _ =>
        match findBodyCode (w.compileCode a filename mode flags).co_consts nm ln with
        | some c =>
          match privatePfx with
          | none => Except.ok c
          | some p => Except.ok (remangle p c)
        | none => Except.error (PyErr.Error "Function body code not found")
      | _ => Except.error (PyErr.Error "Expecting function AST node")

/-- A Python function object: its identity and its __code__ attribute. -/
structure PyFunc where
  oid : Nat
  code : CodeObj

/-- The wrap closure of the model decorator in _model.py. With auto_name
it runs uncompile, parse_snippet, the transformer visit, and recompile,
then assigns the result to func.__code__; the second component of the
result is the post-call state of the function object (unchanged whenever
an exception escapes before the assignment). -/
def wrap (w : PyWorld) (auto_name : Bool) (f : PyFunc) :
    Except PyErr (ModelTemplate PyFunc) × PyFunc :=
  if auto_name then
    match uncompile w f.code with
    | .error e => (.error e, f)
    | .ok unc =>
      match parse_snippet w unc.source unc.filename unc.mode unc.flags
          unc.firstlineno unc.privatePfx with
      | .error e => (.error e, f)
      | .ok tree =>
        match recompile w (.tree (w.transform tree)) unc.filename unc.mode unc.flags
            unc.firstlineno unc.privatePfx with
        | .error e => (.error e, f)
        | .ok newCode =>
          let f2 : PyFunc := ⟨f.oid, newCode⟩
          (.ok ⟨f2⟩, f2)
  else (.ok ⟨f⟩, f)

/- ------------------------------------------------------------------ -/
/- Concrete inputs used by the closed theorems and witnesses           -/
/- ------------------------------------------------------------------ -/

/-- A trivial template function declaring no variables. -/
def c1Template : ModelTemplate TemplateFn := ⟨fun _ _ => Prog.done⟩

/-- An initial Python state: empty heap, counters at zero. -/
def c1State : PyState := ⟨fun _ => [], 0, 0⟩

/-- A configured base model together with the state after configure. -/
def c1Pair : Model × PyState := ModelTemplate.configure c1Template [] [] c1State

/-- The result of calling observe with the single binding y = 1 on the
base model. -/
def c1Obs : Model × PyState := Model.observe c1Pair.1 [("y", 1)] c1Pair.2

/-- A code object compiled from a lambda. -/
def c5Func : PyFunc := ⟨0, .mk 0 0 0 0 "" [] [] [] "f.py" "<lambda>" 1 "" [] []⟩

/-- A world whose oracles all fail; the rejection claims never reach
them. -/
def c5World : PyWorld :=
  ⟨0, fun _ => none, fun _ _ _ _ => ParseOut.otherErr,
   fun _ _ _ _ => CodeObj.mk 0 0 0 0 "" [] [] [] "" "" 0 "" [] [], id⟩

/-- An inner code object whose name does not match the searched
function. -/
def c6Inner : CodeObj := .mk 0 0 0 0 "" [] [] [] "m.py" "g" 1 "" [] []

/-- A world whose compiled module holds a non-code constant and one
mismatching code constant. -/
def c6World : PyWorld :=
  ⟨0, fun _ => none, fun _ _ _ _ => ParseOut.otherErr,
   fun _ _ _ _ =>
     CodeObj.mk 0 0 0 0 "" [Sum.inl 7, Sum.inr c6Inner] [] [] "m.py" "<module>" 1 "" [] [],
   id⟩

/-- A tree whose single statement is a function definition f at line 1. -/
def c6FunTree : Ast := ⟨[Stmt.functionDef "f" 1 []]⟩

/-- A tree whose first statement is not a function definition. -/
def c6OtherTree : Ast := ⟨[Stmt.other 0 1]⟩

/-- An inner function-body code object with private, dunder and plain
names among its referenced and local identifiers. -/
def c7Inner : CodeObj :=
  .mk 1 2 3 4 "code" [Sum.inl 0] ["__x", "__d__", "plain"] ["__v", "ok"] "m.py" "f" 3
    "lt" [] []

/-- A world whose compiled module holds exactly the matching inner code
object. -/
def c7World : PyWorld :=
  ⟨0, fun _ => none, fun _ _ _ _ => ParseOut.otherErr,
   fun _ _ _ _ =>
     CodeObj.mk 0 0 0 0 "" [Sum.inr c7Inner] [] [] "m.py" "<module>" 1 "" [] [],
   id⟩

/-- A tree whose single statement is the function definition f at line
3, matching c7Inner. -/
def c7Tree : Ast := ⟨[Stmt.functionDef "f" 3 []]⟩

/-- A world that parses an unindented snippet directly, reports an
IndentationError on the indented variant, and parses the wrapped
variant into a with-statement holding the snippet's statement. -/
def c8World : PyWorld :=
  ⟨0, fun _ => none,
   fun src _ _ _ =>
     if src = "\n" ++ "a = norm()" then ParseOut.ok ⟨[Stmt.other 3 2]⟩
     else if src = "\n" ++ "    a = norm()" then ParseOut.indentErr
     else if src = "with 0:\n" ++ "    a = norm()" then
       ParseOut.ok ⟨[Stmt.withStmt 1 [Stmt.other 3 2]]⟩
     else ParseOut.otherErr,
   fun _ _ _ _ => CodeObj.mk 0 0 0 0 "" [] [] [] "" "" 0 "" [] [], id⟩

/-- The unshifted tree the c10 world produces for the model source. -/
def c10ParsedTree : Ast := ⟨[Stmt.functionDef "mymodel" 2 [Stmt.other 0 3]]⟩

/-- A function object for the whole-pipeline witness: top-level, named,
with a source file, starting at line 5. -/
def c10Func : PyFunc := ⟨42, CodeObj.mk 0 0 0 0 "" [] [] [] "m.py" "mymodel" 5 "" [] []⟩

/-- The recompiled body code the c10 pipeline produces. -/
def c10NewCode : CodeObj := CodeObj.mk 0 0 0 0 "ret" [] [] [] "m.py" "mymodel" 5 "" [] []

/-- A world under which the whole rewrite pipeline succeeds: source
lines are available, the prefixed source parses, and compiling a module
whose first statement is a function definition yields one matching
body code object. -/
def c10World : PyWorld :=
  ⟨0,
   fun _ => some (["def mymodel():\n", "    pass\n"], 5),
   fun src _ _ _ =>
     if src = "\n" ++ String.join ["def mymodel():\n", "    pass\n"] then
       ParseOut.ok c10ParsedTree
     else ParseOut.otherErr,
   fun a _ _ _ =>
     match a.body with
     | Stmt.functionDef nm ln _ :: _ =>
       CodeObj.mk 0 0 0 0 ""
         [Sum.inr (CodeObj.mk 0 0 0 0 "ret" [] [] [] "m.py" nm ln "" [] [])]
         [] [] "m.py" "<module>" 1 "" [] []
     | _ => CodeObj.mk 0 0 0 0 "" [] [] [] "" "" 0 "" [] [],
   id⟩

/- ------------------------------------------------------------------ -/
/- Helper lemmas                                                       -/
/- ------------------------------------------------------------------ -/

theorem lookupPos_map (exp : List RandomVar) (n : String) :
    lookupPosN (exp.map RandomVar.name) n = lookupPosRV exp n := by
  induction exp with
  | nil => rfl
  | cons e rest ih => simp [lookupPosN, lookupPosRV, ih]

theorem inferEval_eq_inferEvalN (exp : List RandomVar) (prov : List Val) (p : Prog)
    (acc : List RandomVar) :
    inferEval exp prov p acc = inferEvalN (exp.map RandomVar.name) prov p acc := by
  induction p generalizing acc with
  | done => rfl
  | rv n s lp rest ih =>
    simp only [inferEval, inferEvalN, lookupPos_map]
    exact ih _ _

theorem findBodyCode_eq_none (consts : List (Sum Nat CodeObj)) (nm : String) (ln : Int)
    (h : ∀ c, Sum.inr c ∈ consts →
      ¬(CodeObj.co_name c = nm ∧ CodeObj.co_firstlineno c = ln)) :
    findBodyCode consts nm ln = none := by
  induction consts with
  | nil => rfl
  | cons x rest ih =>
    cases x with
    | inl k =>
      simp only [findBodyCode]
      exact ih (fun c hc => h c (List.mem_cons_of_mem _ hc))
    | inr c =>
      have hc := h c (List.mem_cons_self _ _)
      simp only [findBodyCode, if_neg hc]
      exact ih (fun c2 hc2 => h c2 (List.mem_cons_of_mem _ hc2))

theorem uncompile_unsupported (w : PyWorld) (c : CodeObj)
    (h : c.co_flags &&& CO_NESTED ≠ 0 ∨ c.co_freevars ≠ [] ∨ c.co_name = "<lambda>" ∨
         c.co_filename = "<string>" ∨ w.getsourcelines c = none) :
    ∃ e, uncompile w c = Except.error e ∧
      ((∃ s, e = PyErr.Unsupported s) ∨ (∃ s, e = PyErr.NoSource s)) := by
  unfold uncompile
  by_cases h1 : c.co_flags &&& CO_NESTED ≠ 0 ∨ c.co_freevars ≠ []
  · rw [if_pos h1]
    exact ⟨_, rfl, Or.inl ⟨_, rfl⟩⟩
  · rw [if_neg h1]
    by_cases h2 : c.co_name = "<lambda>"
    · rw [if_pos h2]
      exact ⟨_, rfl, Or.inl ⟨_, rfl⟩⟩
    · rw [if_neg h2]
      by_cases h3 : c.co_filename = "<string>"
      · rw [if_pos h3]
        exact ⟨_, rfl, Or.inl ⟨_, rfl⟩⟩
      · rw [if_neg h3]
        have h4 : w.getsourcelines c = none := by
          rcases h with ha | hb | hc2 | hd | he
          · exact absurd (Or.inl ha) h1
          · exact absurd (Or.inr hb) h1
          · exact absurd hc2 h2
          · exact absurd hd h3
          · exact he
        rw [h4]
        exact ⟨_, rfl, Or.inr ⟨_, rfl⟩⟩

theorem stmtLineno_incLineno (n : Int) (s : Stmt) :
    stmtLineno (stmtIncLineno n s) = stmtLineno s + n := by
  cases s <;> rfl

theorem map_lineno_stmtsIncLineno (n : Int) (l : List Stmt) :
    (stmtsIncLineno n l).map stmtLineno = l.map (fun s => stmtLineno s + n) := by
  induction l with
  | nil => rfl
  | cons s rest ih => simp [stmtsIncLineno, stmtLineno_incLineno, ih]

/- ------------------------------------------------------------------ -/
/- Claim theorems                                                      -/
/- ------------------------------------------------------------------ -/

/-- C1: the claim says observe leaves the original model's observation
map unchanged and that the two models hold independent maps. The code
copies the Model with copy.copy, a shallow copy, so the returned model
shares the original's observation dict, and the update mutates the
original's map as well: starting from a freshly configured model with an
empty map, observe with y = 1 yields a distinct model object sharing the
same dict reference, and the original's map afterwards holds y = 1
instead of staying empty. -/
theorem observe_mutates_original_map :
    c1Obs.1.oid ≠ c1Pair.1.oid ∧
    c1Obs.1._observations = c1Pair.1._observations ∧
    c1Pair.2.obsHeap c1Pair.1._observations = [] ∧
    c1Obs.2.obsHeap c1Pair.1._observations = [("y", 1)] :=
  ⟨by decide, rfl, rfl, rfl⟩

/-- C2: the function returned by make_log_prob_function, applied to a
positional tuple of values, behaves exactly as the spec describes: it
opens a fresh Inference Context whose expected variables are the name
list of the Model's Forward Context with the caller's tuple as provided
values, re-evaluates the template function under that context, and
returns the sum of the log-probabilities of every captured variable. -/
theorem make_log_prob_function_matches_spec (m : Model) (args : List Val) :
    Model.make_log_prob_function m args = log_prob_spec m args := by
  by_cases h : args.length = m._forward_context.vars.length
  · simp [Model.make_log_prob_function, log_prob_spec, InferenceContext.init, h,
      inferEval_eq_inferEvalN]
  · simp [Model.make_log_prob_function, log_prob_spec, InferenceContext.init, h]

/-- C3: constructing an Inference Context from expected variables and
provided values of differing lengths fails at construction time with
ContextMismatch. -/
theorem inference_context_length_mismatch (values : List Val) (exp : List RandomVar)
    (h : values.length ≠ exp.length) :
    InferenceContext.init values exp =
      Except.error (PyErr.ContextMismatch "expected_vars and provided_values do not match") := by
  simp [InferenceContext.init, h]

/-- Witness for C3: expected variables of length 2 against provided
values of length 3 fail fast. -/
theorem inference_context_length_mismatch_witness :
    InferenceContext.init [1, 2, 3] [⟨"a", 0, 0⟩, ⟨"b", 0, 0⟩] =
      Except.error (PyErr.ContextMismatch "expected_vars and provided_values do not match") :=
  inference_context_length_mismatch _ _ (by decide)

/-- C4: forward_sample never re-executes the template function: its
result is determined by the stored Forward Context alone (replacing the
template and its arguments with any others changes nothing) and equals
the name-to-value dict over the captured variables, whatever positional
or keyword arguments the caller passes. -/
theorem forward_sample_reads_stored_context (m : Model) (t2 : ModelTemplate TemplateFn)
    (ta2 : List Val × List (String × Val)) (args : List Val)
    (kwargs : List (String × Val)) :
    Model.forward_sample { m with _template := t2, _template_args := ta2 } args kwargs
      = dictOfVars m._forward_context.vars := rfl

/-- C9: configure returns a Model holding exactly the template and the
call arguments, whose Forward Context is populated by exactly one
forward evaluation of the template function at those arguments, with a
freshly allocated empty observation map and a fresh object id. -/
theorem configure_builds_populated_model (t : ModelTemplate TemplateFn) (args : List Val)
    (kwargs : List (String × Val)) (st : PyState) :
    ((t.configure args kwargs st).1)._template = t ∧
    ((t.configure args kwargs st).1)._template_args = (args, kwargs) ∧
    ((t.configure args kwargs st).1)._forward_context =
      ⟨forwardEval (t._func args kwargs) []⟩ ∧
    ((t.configure args kwargs st).2).obsHeap
      ((t.configure args kwargs st).1)._observations = [] ∧
    ((t.configure args kwargs st).2).nextOid = st.nextOid + 1 :=
  ⟨rfl, rfl, rfl, by simp [ModelTemplate.configure, Model.init], rfl⟩

/-- C5: wrapping a nested or closure-capturing function, a lambda, or a
function whose source text is not retrievable fails with Unsupported
(NoSource when only the source lines are unavailable), and the function
object is left unmutated whenever the pipeline fails, under any world. -/
theorem wrap_rejects_unsupported_inputs (w : PyWorld) (f : PyFunc)
    (h : f.code.co_flags &&& CO_NESTED ≠ 0 ∨ f.code.co_freevars ≠ [] ∨
         f.code.co_name = "<lambda>" ∨ f.code.co_filename = "<string>" ∨
         w.getsourcelines f.code = none) :
    (∃ e, wrap w true f = (Except.error e, f) ∧
       ((∃ s, e = PyErr.Unsupported s) ∨ (∃ s, e = PyErr.NoSource s))) ∧
    (∀ (b : Bool) (e : PyErr), (wrap w b f).1 = Except.error e →
       (wrap w b f).2 = f) := by
  refine ⟨?_, ?_⟩
  · obtain ⟨e, he, hcl⟩ := uncompile_unsupported w f.code h
    exact ⟨e, by simp [wrap, he], hcl⟩
  · intro b e
    cases b with
    | false => intro _; rfl
    | true =>
      cases hu : uncompile w f.code with
      | error e2 => intro _; simp [wrap, hu]
      | ok unc =>
        cases hp : parse_snippet w unc.source unc.filename unc.mode unc.flags
            unc.firstlineno unc.privatePfx with
        | error e2 => intro _; simp [wrap, hu, hp]
        | ok tree =>
          cases hr : recompile w (.tree (w.transform tree)) unc.filename unc.mode
              unc.flags unc.firstlineno unc.privatePfx with
          | error e2 => intro _; simp [wrap, hu, hp, hr]
          | ok nc =>
            intro hcontra
            simp [wrap, hu, hp, hr] at hcontra

/-- Witness for C5: a lambda code object is rejected and the function is
unmutated. -/
theorem wrap_rejects_unsupported_inputs_witness :
    c5Func.code.co_name = "<lambda>" ∧
    ((∃ e, wrap c5World true c5Func = (Except.error e, c5Func) ∧
       ((∃ s, e = PyErr.Unsupported s) ∨ (∃ s, e = PyErr.NoSource s))) ∧
     (∀ (b : Bool) (e : PyErr), (wrap c5World b c5Func).1 = Except.error e →
        (wrap c5World b c5Func).2 = c5Func)) :=
  ⟨rfl, wrap_rejects_unsupported_inputs c5World c5Func (Or.inr (Or.inr (Or.inl rfl)))⟩

/-- C6: when the compiled module holds no inner code object whose name
and first line both match the parsed function definition, recompile
raises the explicit error Function body code not found; when the tree's
first statement is not a function definition it raises Expecting
function AST node. -/
theorem recompile_fails_explicitly :
    (∀ (w : PyWorld) (fn md : String) (fl : Nat) (fln : Int) (pp : Option String)
        (a : Ast) (nm : String) (ln : Int) (body rest : List Stmt),
      a.body = Stmt.functionDef nm ln body :: rest →
      (∀ c, Sum.inr c ∈ (w.compileCode a fn md fl).co_consts →
        ¬(CodeObj.co_name c = nm ∧ CodeObj.co_firstlineno c = ln)) →
      recompile w (.tree a) fn md fl fln pp =
        Except.error (PyErr.Error "Function body code not found")) ∧
    (∀ (w : PyWorld) (fn md : String) (fl : Nat) (fln : Int) (pp : Option String)
        (a : Ast) (node : Stmt) (rest : List Stmt),
      a.body = node :: rest → isFunctionDefStmt node = false →
      recompile w (.tree a) fn md fl fln pp =
        Except.error (PyErr.Error "Expecting function AST node")) := by
  constructor
  · intro w fn md fl fln pp a nm ln body rest h1 h2
    have hn := findBodyCode_eq_none _ nm ln h2
    simp [recompile, h1, hn]
  · intro w fn md fl fln pp a node rest h1 h2
    cases node with
    | functionDef nm ln b => simp [isFunctionDefStmt] at h2
    | withStmt l b => simp [recompile, h1]
    | other t l => simp [recompile, h1]

/-- Witness for C6: a module whose constants hold only a non-code
constant and a mismatching code object makes recompile fail, and a tree
led by a non-function statement makes it fail too. -/
theorem recompile_fails_explicitly_witness :
    recompile c6World (.tree c6FunTree) "m.py" "exec" 0 1 none =
      Except.error (PyErr.Error "Function body code not found") ∧
    recompile c6World (.tree c6OtherTree) "m.py" "exec" 0 1 none =
      Except.error (PyErr.Error "Expecting function AST node") :=
  ⟨recompile_fails_explicitly.1 c6World "m.py" "exec" 0 1 none c6FunTree "f" 1 [] []
      rfl
      (by
        intro c hc
        have hc2 : Sum.inr c ∈ [Sum.inl 7, Sum.inr c6Inner] := hc
        rcases List.mem_cons.mp hc2 with h | h
        · exact Sum.noConfusion h
        · have h3 := List.mem_singleton.mp h
          injection h3 with h4
          subst h4
          decide),
   recompile_fails_explicitly.2 c6World "m.py" "exec" 0 1 none c6OtherTree
      (Stmt.other 0 1) [] rfl rfl⟩

/-- C7: with a recorded mangling prefix, recompile returns the located
body code with the prefix prepended to exactly those referenced names
and local variable names that begin with two underscores and do not end
with two underscores, every other identifier and every other code
component unchanged. -/
theorem recompile_remangles_private_names (w : PyWorld) (fn md : String) (fl : Nat)
    (fln : Int) (p : String) (a : Ast) (nm : String) (ln : Int)
    (body rest : List Stmt) (c : CodeObj)
    (h1 : a.body = Stmt.functionDef nm ln body :: rest)
    (h2 : findBodyCode (w.compileCode a fn md fl).co_consts nm ln = some c) :
    ∃ c2, recompile w (.tree a) fn md fl fln (some p) = Except.ok c2 ∧
      c2.co_names = c.co_names.map
        (fun s => if s.startsWith "__" && !(s.endsWith "__") then p ++ s else s) ∧
      c2.co_varnames = c.co_varnames.map
        (fun s => if s.startsWith "__" && !(s.endsWith "__") then p ++ s else s) ∧
      c2.co_argcount = c.co_argcount ∧ c2.co_nlocals = c.co_nlocals ∧
      c2.co_stacksize = c.co_stacksize ∧ c2.co_flags = c.co_flags ∧
      c2.co_code = c.co_code ∧ c2.co_consts = c.co_consts ∧
      c2.co_filename = c.co_filename ∧ c2.co_name = c.co_name ∧
      c2.co_firstlineno = c.co_firstlineno ∧ c2.co_lnotab = c.co_lnotab ∧
      c2.co_freevars = c.co_freevars ∧ c2.co_cellvars = c.co_cellvars := by
  cases c with
  | mk a1 a2 a3 a4 a5 a6 a7 a8 a9 a10 a11 a12 a13 a14 =>
    refine ⟨remangle p (.mk a1 a2 a3 a4 a5 a6 a7 a8 a9 a10 a11 a12 a13 a14),
      ?_, rfl, rfl, rfl, rfl, rfl, rfl, rfl, rfl, rfl, rfl, rfl, rfl, rfl, rfl⟩
    simp [recompile, h1, h2]

/-- Witness for C7: a body code holding the private name __x, the dunder
__d__ and a plain name among co_names, and the private __v among
co_varnames, remangled with prefix _C. -/
theorem recompile_remangles_private_names_witness :
    ∃ c2, recompile c7World (.tree c7Tree) "m.py" "exec" 0 3 (some "_C") =
        Except.ok c2 ∧
      c2.co_names = (c7Inner.co_names).map
        (fun s => if s.startsWith "__" && !(s.endsWith "__") then "_C" ++ s else s) ∧
      c2.co_varnames = (c7Inner.co_varnames).map
        (fun s => if s.startsWith "__" && !(s.endsWith "__") then "_C" ++ s else s) ∧
      c2.co_argcount = c7Inner.co_argcount ∧ c2.co_nlocals = c7Inner.co_nlocals ∧
      c2.co_stacksize = c7Inner.co_stacksize ∧ c2.co_flags = c7Inner.co_flags ∧
      c2.co_code = c7Inner.co_code ∧ c2.co_consts = c7Inner.co_consts ∧
      c2.co_filename = c7Inner.co_filename ∧ c2.co_name = c7Inner.co_name ∧
      c2.co_firstlineno = c7Inner.co_firstlineno ∧ c2.co_lnotab = c7Inner.co_lnotab ∧
      c2.co_freevars = c7Inner.co_freevars ∧ c2.co_cellvars = c7Inner.co_cellvars :=
  recompile_remangles_private_names c7World "m.py" "exec" 0 3 "_C" c7Tree "f" 3 [] []
    c7Inner rfl rfl

/-- C8: when the newline-prefixed snippet parses, parse_snippet returns
that tree with every statement's line number shifted by firstlineno - 2,
which places the snippet's first parsed line (line 2 of the prefixed
text) at firstlineno, the function's original location; when the direct
parse reports an IndentationError, the snippet is parsed wrapped in a
dummy with-statement whose wrapper node is discarded, the returned tree
body being the snippet's own statements, shifted the same way. -/
theorem parse_snippet_shifts_and_unwraps (w : PyWorld) (source fn md : String)
    (fl : Nat) (fln : Int) (pp : Option String) :
    (∀ a, w.compileAst ("\n" ++ source) fn md (fl ||| PyCF_ONLY_AST) = ParseOut.ok a →
      parse_snippet w source fn md fl fln pp = Except.ok (astIncLineno a (fln - 2)) ∧
      (astIncLineno a (fln - 2)).body.map stmtLineno
        = a.body.map (fun s => stmtLineno s + (fln - 2))) ∧
    (∀ (a : Ast) (l : Int) (inner rest : List Stmt),
      w.compileAst ("\n" ++ source) fn md (fl ||| PyCF_ONLY_AST) = ParseOut.indentErr →
      w.compileAst ("with 0:\n" ++ source) fn md (fl ||| PyCF_ONLY_AST) = ParseOut.ok a →
      a.body = Stmt.withStmt l inner :: rest →
      parse_snippet w source fn md fl fln pp
        = Except.ok (astIncLineno ⟨inner⟩ (fln - 2)) ∧
      (astIncLineno (⟨inner⟩ : Ast) (fln - 2)).body.map stmtLineno
        = inner.map (fun s => stmtLineno s + (fln - 2))) := by
  constructor
  · intro a ha
    refine ⟨by simp [parse_snippet, ha], ?_⟩
    exact map_lineno_stmtsIncLineno _ _
  · intro a l inner rest h0 h1 h2
    refine ⟨by simp [parse_snippet, h0, h1, h2, stmtBody?], ?_⟩
    exact map_lineno_stmtsIncLineno _ _

/-- Witness for C8: an unindented snippet parses directly and is shifted
to firstlineno 10; the indented variant goes through the dummy
with-wrapper, which is discarded. -/
theorem parse_snippet_shifts_and_unwraps_witness :
    (parse_snippet c8World "a = norm()" "m.py" "exec" 0 10 none
        = Except.ok (astIncLineno ⟨[Stmt.other 3 2]⟩ (10 - 2)) ∧
      (astIncLineno (⟨[Stmt.other 3 2]⟩ : Ast) (10 - 2)).body.map stmtLineno
        = [Stmt.other 3 2].map (fun s => stmtLineno s + (10 - 2))) ∧
    (parse_snippet c8World "    a = norm()" "m.py" "exec" 0 10 none
        = Except.ok (astIncLineno ⟨[Stmt.other 3 2]⟩ (10 - 2)) ∧
      (astIncLineno (⟨[Stmt.other 3 2]⟩ : Ast) (10 - 2)).body.map stmtLineno
        = [Stmt.other 3 2].map (fun s => stmtLineno s + (10 - 2))) :=
  ⟨(parse_snippet_shifts_and_unwraps c8World "a = norm()" "m.py" "exec" 0 10 none).1
      ⟨[Stmt.other 3 2]⟩ rfl,
   (parse_snippet_shifts_and_unwraps c8World "    a = norm()" "m.py" "exec" 0 10 none).2
      ⟨[Stmt.withStmt 1 [Stmt.other 3 2]]⟩ 1 [Stmt.other 3 2] [] rfl rfl rfl⟩

/-- C10: when the whole pipeline succeeds under auto_name, the function
object is mutated in place: the post-call function keeps its identity
but carries the recompiled code, and the returned ModelTemplate wraps
exactly that mutated function object. -/
theorem wrap_auto_name_mutates_function (w : PyWorld) (f : PyFunc) (unc : Uncompiled)
    (t : Ast) (nc : CodeObj)
    (h1 : uncompile w f.code = Except.ok unc)
    (h2 : parse_snippet w unc.source unc.filename unc.mode unc.flags unc.firstlineno
        unc.privatePfx = Except.ok t)
    (h3 : recompile w (.tree (w.transform t)) unc.filename unc.mode unc.flags
        unc.firstlineno unc.privatePfx = Except.ok nc) :
    wrap w true f = (Except.ok ⟨⟨f.oid, nc⟩⟩, ⟨f.oid, nc⟩) := by
  simp [wrap, h1, h2, h3]

/-- Witness for C10: a top-level named function whose pipeline succeeds
end to end; the function object 42 ends up carrying the recompiled body
code, and the template wraps that same object. -/
theorem wrap_auto_name_mutates_function_witness :
    wrap c10World true c10Func = (Except.ok ⟨⟨42, c10NewCode⟩⟩, ⟨42, c10NewCode⟩) :=
  wrap_auto_name_mutates_function c10World c10Func
    ⟨String.join ["def mymodel():\n", "    pass\n"], "m.py", "exec", 0, 5, none⟩
    (astIncLineno c10ParsedTree 3) c10NewCode rfl rfl rfl
